import Mathlib

/-!
Verification of `src/picamgui_ver_1.0.py` (single-file Raspberry Pi camera
GUI, class `CameraGUI`) against its natural-language specification.

The embedding below translates the code paths the claims depend on:

* Qt geometry (`QPoint`, `QRect`) with Qt5 integer-rectangle semantics
  (`width = x2 - x1 + 1`, the historical `normalized`/`contains` rules);
* raw frames as rectangular lists of pixels (`Frame`), with `np.rot90`
  and Python/numpy slice semantics;
* the preview tick `CameraGUI.update_preview` (lines 442-522) and the
  magnifier tick `CameraGUI.update_magnifier` (lines 527-571);
* the pointer state machine `preview_mouse_press` / `preview_mouse_move` /
  `preview_mouse_release` / `apply_crop_from_rect` / `clear_crop`
  (lines 755-806);
* `capture_image` (lines 579-648), `stop_recording` (lines 700-753) and
  `set_lens_position` (lines 863-880) at the level of their observable
  effects (camera stopped or not, temp file removed or not, control value
  pushed).

Python `int(x)` applied to the products `bound * (sensorDim / displayDim)`
is modelled as exact rational truncation toward zero (`Int.tdiv`); IEEE
double rounding of the intermediate quotient can differ from the exact
value only in the last ulp, and no theorem in this file is sensitive to
that difference (the instantiated values are exactly representable).
A pixel is modelled as a single `Nat`: the source moves whole RGB triples
around (rot90, slicing) and never splits channels after the initial
3-channel normalization.
-/

namespace PiCamGui

/-- Qt `QPoint`: integer 2D point. -/
structure QPoint where
  x : Int
  y : Int
deriving DecidableEq, Repr

/-- Componentwise difference, Qt `QPoint` operator-. -/
def QPoint.sub (p q : QPoint) : QPoint := ⟨p.x - q.x, p.y - q.y⟩

/-- Qt `QRect`, stored as in Qt5 by its two corners `(x1,y1)`-`(x2,y2)`. -/
structure QRect where
  x1 : Int
  y1 : Int
  x2 : Int
  y2 : Int
deriving DecidableEq, Repr

namespace QRect

/-- Qt constructor `QRect(x, y, w, h)`. -/
def ofXYWH (x y w h : Int) : QRect := ⟨x, y, x + w - 1, y + h - 1⟩

/-- Qt constructor `QRect(topLeft, bottomRight)`. -/
def ofPoints (p q : QPoint) : QRect := ⟨p.x, p.y, q.x, q.y⟩

def left (r : QRect) : Int := r.x1
def top (r : QRect) : Int := r.y1
def right (r : QRect) : Int := r.x2
def bottom (r : QRect) : Int := r.y2
def width (r : QRect) : Int := r.x2 - r.x1 + 1
def height (r : QRect) : Int := r.y2 - r.y1 + 1
def topLeft (r : QRect) : QPoint := ⟨r.x1, r.y1⟩

/-- Qt5 `QRect::normalized`: corners are swapped on an axis only when the
extent on that axis is strictly negative (`x2 < x1 - 1`). -/
def normalized (r : QRect) : QRect :=
  { x1 := if r.x2 < r.x1 - 1 then r.x2 else r.x1
    x2 := if r.x2 < r.x1 - 1 then r.x1 else r.x2
    y1 := if r.y2 < r.y1 - 1 then r.y2 else r.y1
    y2 := if r.y2 < r.y1 - 1 then r.y1 else r.y2 }

/-- Qt5 `QRect::contains(point)` (non-proper: edges count as inside). -/
def containsPt (r : QRect) (p : QPoint) : Bool :=
  let l := if r.x2 < r.x1 - 1 then r.x2 else r.x1
  let rr := if r.x2 < r.x1 - 1 then r.x1 else r.x2
  let t := if r.y2 < r.y1 - 1 then r.y2 else r.y1
  let b := if r.y2 < r.y1 - 1 then r.y1 else r.y2
  decide (l ≤ p.x ∧ p.x ≤ rr ∧ t ≤ p.y ∧ p.y ≤ b)

/-- Qt `QRect::moveTopLeft` / `moveTo`: translate, preserving the size. -/
def moveTopLeft (r : QRect) (p : QPoint) : QRect :=
  ⟨p.x, p.y, p.x + (r.x2 - r.x1), p.y + (r.y2 - r.y1)⟩

end QRect

/-- A raw camera frame after 3-channel normalization: a list of rows of
pixels (`rows.length` is the numpy shape's height, each row's length the
width). -/
structure Frame where
  rows : List (List Nat)
deriving DecidableEq, Repr

namespace Frame

/-- numpy `a.size > 0` for an `(h, w, 3)` array holds iff `h > 0` and
`w > 0`; with rows as lists this is `sum of row lengths > 0`. -/
def size (f : Frame) : Nat := (f.rows.map List.length).sum

/-- numpy `np.rot90(m)`: one counterclockwise quarter turn,
`out[i][j] = in[j][w - 1 - i]`, realized as transpose-then-reverse. -/
def rot90 (f : Frame) : Frame := ⟨f.rows.transpose.reverse⟩

/-- numpy `np.rot90(m, k)`: `k` counterclockwise quarter turns. -/
def rotK (f : Frame) : Nat → Frame
  | 0 => f
  | k + 1 => (f.rot90).rotK k

/-- Python/numpy slice `a[i1:i2]` for bounds already clamped to
`[0, len]`: drop `i1`, take `i2 - i1` (empty when `i2 ≤ i1`). -/
def sliceRow (r : List Nat) (i1 i2 : Int) : List Nat :=
  (r.drop i1.toNat).take (i2 - i1).toNat

/-- numpy slice `a[y1:y2, x1:x2, :]`. -/
def sliceFrame (f : Frame) (y1 y2 x1 x2 : Int) : Frame :=
  ⟨((f.rows.drop y1.toNat).take (y2 - y1).toNat).map (fun r => sliceRow r x1 x2)⟩

end Frame

/-! ## Display-space to sensor-space mapping (update_preview lines 467-482,
update_magnifier lines 536-549) -/

/-- Python `int(v * (s / l))` on integers, modelled as exact truncation
toward zero of `v * s / l` (`int()` truncates toward zero). -/
def pyScale (v s l : Int) : Int := (v * s).tdiv l

/-- The clamp `max(0, min(v, dim))` applied to each sensor bound
(lines 479-482 and 546-549). -/
def clampBound (v dim : Int) : Int := max 0 (min v dim)

/-- A sensor-space rectangle as the four clamped slice bounds. -/
structure SensorRect where
  x1 : Int
  y1 : Int
  x2 : Int
  y2 : Int
deriving DecidableEq, Repr

/-- Lines 471-482 of `update_preview`: convert an applied display-space
crop rectangle to clamped sensor-space slice bounds using the scale
factors `sensorDim / labelDim`. -/
def cropSensorBounds (r : QRect) (lw lh sw sh : Int) : SensorRect :=
  { x1 := clampBound (pyScale r.left sw lw) sw
    y1 := clampBound (pyScale r.top sh lh) sh
    x2 := clampBound (pyScale r.right sw lw) sw
    y2 := clampBound (pyScale r.bottom sh lh) sh }

/-! ## The preview tick (`CameraGUI.update_preview`) and the magnifier
tick (`CameraGUI.update_magnifier`)

The tick's final steps — `img_pil.resize((label_w, label_h), LANCZOS)`,
overlay drawing and QImage conversion — only re-present the pixel source
selected by the earlier steps; the resampling filters are kept symbolic:
a `RenderOut`/`MagOut` value records which source frame is handed to the
resize step and at what target size. -/

/-- Result of a preview tick, before overlay drawing: either the solid
black `Image.new('RGB', (label_w, label_h), 'black')` (line 494) or the
Lanczos resize of a source frame to the label size (line 492). -/
inductive RenderOut
  | black (w h : Int)
  | scaled (src : Frame) (w h : Int)
deriving DecidableEq, Repr

/-- Result of a magnifier tick: either the `"No content"` text (line 568)
or the nearest-neighbor resize of a source crop to the magnifier label
size (lines 554-558). -/
inductive MagOut
  | noContent
  | scaledNearest (src : Frame) (w h : Int)
deriving DecidableEq, Repr

/-- Source `CameraGUI.update_magnifier` (lines 527-571): the magnifier rectangle
is mapped through scale factors computed from the stored frame's own
dimensions `h, w = img.shape[:2]` (lines 534-539) — the full raw frame,
not the preview pipeline's output — then sliced and resized. -/
def update_magnifier (frame : Frame) (magRect : QRect) (lw lh magW magH : Int) : MagOut :=
  let h : Int := frame.rows.length
  let w : Int := (frame.rows.headD []).length
  let x1 := clampBound (pyScale magRect.left w lw) w
  let y1 := clampBound (pyScale magRect.top h lh) h
  let x2 := clampBound (pyScale magRect.right w lw) w
  let y2 := clampBound (pyScale magRect.bottom h lh) h
  let crop := frame.sliceFrame y1 y2 x1 x2
  if 0 < crop.size then MagOut.scaledNearest crop magW magH else MagOut.noContent

/-- Joint output of one preview tick: the preview bitmap source and, when
the magnifier checkbox is checked, the magnifier bitmap source. -/
structure TickOut where
  preview : RenderOut
  mag : Option MagOut
deriving DecidableEq, Repr

/-- Source `CameraGUI.update_preview` (lines 442-522), for a tick in which
`capture_array` returned a nonempty 3-channel frame:

1. `self.current_frame = img.copy()` (line 460) — the raw frame is saved
   BEFORE any transform;
2. rotation (lines 462-464): `img = np.rot90(img, (rotation // 90) % 4)`
   when `rotation != 0`;
3. crop (lines 467-485): when an applied crop exists, the slice is taken
   from `self.current_frame` — the saved raw frame — not from the rotated
   `img`;
4. lines 490-494: a nonempty result is resized to the label size, an
   empty one replaced by a solid black label-sized image;
5. when the magnifier checkbox is checked, `update_magnifier` runs on
   `self.current_frame` (lines 507-513 and 527-533). -/
def fullTick (rotation : Int) (crop : Option QRect) (magChecked : Bool)
    (magRect : QRect) (lw lh sw sh magW magH : Int) (frame : Frame) : TickOut :=
  let currentFrame := frame
  let img := if rotation ≠ 0 then frame.rotK ((rotation.ediv 90).emod 4).toNat else frame
  let img2 :=
    match crop with
    | some r =>
        let b := cropSensorBounds r lw lh sw sh
        currentFrame.sliceFrame b.y1 b.y2 b.x1 b.x2
    | none => img
  { preview := if 0 < img2.size then RenderOut.scaled img2 lw lh else RenderOut.black lw lh
    mag := if magChecked then some (update_magnifier currentFrame magRect lw lh magW magH) else none }

/-- Modelled from the spec wording of the claim, for comparison with
`fullTick` and never used by it: "the displayed bitmap is produced by
first rotating the raw frame by the rotation angle and then slicing the
crop region out of that rotated frame". -/
def claimedRotateThenCrop (rotation : Int) (r : QRect) (lw lh sw sh : Int)
    (frame : Frame) : RenderOut :=
  let img := frame.rotK ((rotation.ediv 90).emod 4).toNat
  let b := cropSensorBounds r lw lh sw sh
  let img2 := img.sliceFrame b.y1 b.y2 b.x1 b.x2
  if 0 < img2.size then RenderOut.scaled img2 lw lh else RenderOut.black lw lh

/-! ## Pointer input state machine (lines 755-806)

The mutable fields of `CameraGUI` touched by the mouse handlers and the
crop buttons.  `None` values are `Option.none`; PyQt objects without a
`__bool__` override are truthy exactly when not `None`, so Python
`if self.temp_drawn_rect:` is `tempRect.isSome`. -/

structure UiState where
  /-- Mirrors `self.magnifier_toggle.isChecked()`; the magnifier label is visible
  iff this is checked (`toggle_magnifier`, lines 573-577). -/
  magChecked : Bool
  /-- Mirrors `self.mag_rect`. -/
  magRect : QRect
  /-- Mirrors `self.is_mag_dragging`. -/
  isMagDragging : Bool
  /-- Mirrors `self.drag_offset`; always set before `is_mag_dragging` becomes true. -/
  dragOffset : Option QPoint
  /-- Mirrors `self.is_dragging` (crop draft drag). -/
  isDragging : Bool
  /-- Mirrors `self.drag_start`. -/
  dragStart : Option QPoint
  /-- Mirrors `self.temp_drawn_rect` (the draft rectangle). -/
  tempRect : Option QRect
  /-- Mirrors `self.applied_crop_rect` (the applied crop). -/
  appliedRect : Option QRect
  /-- Mirrors `self.crop_apply_btn.isEnabled()`. -/
  applyEnabled : Bool
deriving DecidableEq, Repr

/-- Source `CameraGUI.preview_mouse_press` (lines 755-764). -/
def preview_mouse_press (s : UiState) (p : QPoint) (leftButton : Bool) : UiState :=
  if s.magChecked && s.magRect.containsPt p then
    { s with isMagDragging := true, dragOffset := some (p.sub s.magRect.topLeft) }
  else if leftButton then
    { s with dragStart := some p, isDragging := true,
             tempRect := some (QRect.ofPoints p p), applyEnabled := false }
  else s

/-- Source `CameraGUI.preview_mouse_move` (lines 766-776).  The source reads
`self.drag_offset` / `self.drag_start` only on branches that guarantee
they were previously set; the unreachable `none` branches leave the state
unchanged. -/
def preview_mouse_move (s : UiState) (p : QPoint) : UiState :=
  if s.isMagDragging then
    match s.dragOffset with
    | some off => { s with magRect := s.magRect.moveTopLeft (p.sub off) }
    | none => s
  else if s.isDragging && s.dragStart.isSome then
    match s.dragStart with
    | some st =>
        let r := (QRect.ofPoints st p).normalized
        { s with tempRect := some r,
                 applyEnabled := decide (10 < r.width ∧ 10 < r.height) }
    | none => s
  else s

/-- Source `CameraGUI.preview_mouse_release` (lines 778-785). -/
def preview_mouse_release (s : UiState) : UiState :=
  let s1 := { s with isMagDragging := false }
  if s1.isDragging then
    let s2 := { s1 with isDragging := false }
    match s2.tempRect with
    | some r =>
        if r.width < 10 || r.height < 10 then
          { s2 with tempRect := none, applyEnabled := false }
        else s2
    | none => s2
  else s1

/-- Source `CameraGUI.apply_crop_from_rect` (lines 787-797). -/
def apply_crop_from_rect (s : UiState) : UiState :=
  match s.tempRect with
  | none => s
  | some r => { s with appliedRect := some r, tempRect := none }

/-- Source `CameraGUI.clear_crop` (lines 799-806). -/
def clear_crop (s : UiState) : UiState :=
  { s with appliedRect := none, tempRect := none, applyEnabled := false }

/-- Source `CameraGUI.center_magnifier_box` (lines 344-354) with the fixed
800x600 preview label: `moveTo((800 - w) // 2, (600 - h) // 2)`. -/
def center_magnifier_box (r : QRect) : QRect :=
  r.moveTopLeft ⟨(800 - r.width).ediv 2, (600 - r.height).ediv 2⟩

/-- User-visible events driving the pointer/crop state machine.  A click
on the Apply button reaches `apply_crop_from_rect` only while the button
is enabled (a disabled `QPushButton` emits no `clicked` signal). -/
inductive UiEvent
  | press (p : QPoint) (leftButton : Bool)
  | move (p : QPoint)
  | release
  | applyClick
  | clearClick
  | magToggle (checked : Bool)
deriving DecidableEq, Repr

/-- One step of the pointer/crop state machine. -/
def uiStep (s : UiState) : UiEvent → UiState
  | .press p lb => preview_mouse_press s p lb
  | .move p => preview_mouse_move s p
  | .release => preview_mouse_release s
  | .applyClick => if s.applyEnabled then apply_crop_from_rect s else s
  | .clearClick => clear_crop s
  | .magToggle c =>
      { s with magChecked := c,
               magRect := if c then center_magnifier_box s.magRect else s.magRect }

/-- Run a sequence of events. -/
def uiRun (s : UiState) (evs : List UiEvent) : UiState := evs.foldl uiStep s

/-- The state after `CameraGUI.__init__` / `setup_ui`: `mag_rect` starts
as `QRect(10, 10, 150, 150)` (line 46) and is centered by
`center_magnifier_box` (line 285); the Apply button starts disabled
(line 207); the magnifier checkbox starts unchecked (line 137). -/
def initUiState : UiState :=
  { magChecked := false
    magRect := center_magnifier_box (QRect.ofXYWH 10 10 150 150)
    isMagDragging := false
    dragOffset := none
    isDragging := false
    dragStart := none
    tempRect := none
    appliedRect := none
    applyEnabled := false }

/-! ## Still capture during recording (`CameraGUI.capture_image`,
lines 579-648) -/

/-- The `CameraGUI` fields that decide `capture_image`'s control flow. -/
structure CamCtl where
  /-- Mirrors `self.picam` is not `None`. -/
  picamSome : Bool
  /-- Mirrors `self.is_recording`. -/
  isRecording : Bool
deriving DecidableEq, Repr

/-- Observable effect of pressing Capture. -/
structure CaptureEffects where
  /-- The request returned early with "Camera not initialized". -/
  rejected : Bool
  /-- Mirrors `self.preview_timer.stop(); self.picam.stop()` ran (lines 591-592),
  which terminates any active camera operation, recording included. -/
  cameraStopped : Bool
deriving DecidableEq, Repr

/-- Source `CameraGUI.capture_image`: the only guard is `if not self.picam:`
(lines 581-583); `self.is_recording` is never consulted, so a capture
request issued while recording proceeds to stop and reconfigure the
camera. -/
def capture_image (s : CamCtl) : CaptureEffects :=
  if !s.picamSome then { rejected := true, cameraStopped := false }
  else { rejected := false, cameraStopped := true }

/-! ## Recording finalization (`CameraGUI.stop_recording`, lines 700-753) -/

/-- Exit status of the external `ffmpeg` conversion (line 733,
`check=True`: a nonzero exit raises `CalledProcessError`). -/
inductive ConvOutcome
  | success
  | failure
deriving DecidableEq, Repr

/-- Mirrors `self.temp_video_path` (line 678). -/
def tempVideoPath : String := "/tmp/temp_video.h264"

/-- The argument list passed to `subprocess.run` (line 734); a
`CalledProcessError` carries it, so `str(e)` — and hence the reported
error message — names the temp file's path. -/
def ffmpegCmd (target : String) : List String :=
  ["ffmpeg", "-i", tempVideoPath, "-c", "copy", target]

/-- Observable outcome of `stop_recording`. -/
structure StopRecResult where
  /-- Mirrors `self.is_recording` afterwards. -/
  isRecordingAfter : Bool
  /-- True when `os.remove(self.temp_video_path)` ran. -/
  tempRemoved : Bool
  /-- The final file produced by a successful conversion, if any. -/
  savedPath : Option String
  /-- The command embedded in the reported error, when the `except` branch
  ran with a `CalledProcessError`. -/
  errorCmd : Option (List String)
deriving DecidableEq, Repr

/-- Source `CameraGUI.stop_recording`, with the device stop (line 713) assumed to
succeed and the save dialog's result and the converter's exit status as
inputs:

* not recording: early return, nothing happens (lines 704-705);
* dialog cancelled (`filename` empty): the temp file is removed and the
  outcome is a plain "Video not saved." discard (lines 741-743);
* a target chosen and `ffmpeg` succeeds: the temp file is removed only
  after the successful `subprocess.run` returns (lines 733-740);
* a target chosen and `ffmpeg` fails: `check=True` raises before the
  `os.remove` line, the `except` branch reports an error built from the
  `CalledProcessError` (which names the command, temp path included), and
  the temp file is left in place (lines 745-748). -/
def stop_recording (isRecording : Bool) (dialog : Option String)
    (conv : ConvOutcome) : StopRecResult :=
  if !isRecording then
    { isRecordingAfter := isRecording, tempRemoved := false,
      savedPath := none, errorCmd := none }
  else
    match dialog with
    | some target =>
        match conv with
        | .success =>
            { isRecordingAfter := false, tempRemoved := true,
              savedPath := some target, errorCmd := none }
        | .failure =>
            { isRecordingAfter := false, tempRemoved := false,
              savedPath := none, errorCmd := some (ffmpegCmd target) }
    | none =>
        { isRecordingAfter := false, tempRemoved := true,
          savedPath := none, errorCmd := none }

/-! ## Manual lens position (`CameraGUI.set_lens_position`,
lines 863-880) -/

/-- The `LensPosition` control value pushed to the device for a slider
value `v`: `position = float(value) / 100.0` (line 869). -/
def set_lens_position_pushed (value : Int) : ℚ := (value : ℚ) / 100

/-- The slider range configured in `setup_ui` (line 238):
`self.lens_slider.setRange(0, 1000)`. -/
def lensSliderRange : Set Int := {v : Int | 0 ≤ v ∧ v ≤ 1000}

/-- The fixed 800x600 preview label (`setFixedSize(800, 600)`, line 87):
a rectangle lies fully within the display surface. -/
def withinDisplaySurface (r : QRect) : Prop :=
  0 ≤ r.left ∧ 0 ≤ r.top ∧ r.right ≤ 799 ∧ r.bottom ≤ 599

/-! ## Helper lemmas -/

theorem clampBound_nonneg (v dim : Int) : 0 ≤ clampBound v dim :=
  le_max_left 0 _

theorem clampBound_le_dim (v dim : Int) (hd : 0 ≤ dim) : clampBound v dim ≤ dim :=
  max_le hd (min_le_right v dim)

theorem sliceFrame_size_zero (f : Frame) (y1 y2 x1 x2 : Int)
    (h : x2 ≤ x1 ∨ y2 ≤ y1) : (f.sliceFrame y1 y2 x1 x2).size = 0 := by
  rcases h with h | h
  · unfold Frame.sliceFrame Frame.size Frame.sliceRow
    apply List.sum_eq_zero
    intro n hn
    simp only [List.map_map, List.mem_map, Function.comp] at hn
    obtain ⟨row, _, hrow⟩ := hn
    have hx : (x2 - x1).toNat = 0 := by omega
    simp [← hrow, hx]
  · unfold Frame.sliceFrame Frame.size
    have hy : (y2 - y1).toNat = 0 := by omega
    simp [hy]

/-- The crop-threshold invariant maintained by the pointer state machine:
every applied crop, and every draft while the Apply button is enabled,
has both dimensions strictly above 10 display pixels. -/
def CropInv (s : UiState) : Prop :=
  (∀ r, s.appliedRect = some r → 10 < r.width ∧ 10 < r.height) ∧
  (s.applyEnabled = true → ∀ r, s.tempRect = some r → 10 < r.width ∧ 10 < r.height)

theorem cropInv_init : CropInv initUiState := by
  constructor
  · intro r hr; exact absurd hr (by simp [initUiState])
  · intro h; exact absurd h (by simp [initUiState])

theorem cropInv_uiStep (s : UiState) (e : UiEvent) (h : CropInv s) :
    CropInv (uiStep s e) := by
  obtain ⟨h1, h2⟩ := h
  cases e with
  | press p lb =>
      simp only [uiStep, preview_mouse_press]
      split
      · exact ⟨h1, h2⟩
      · split
        · refine ⟨h1, ?_⟩
          intro hen
          exact absurd hen (by simp)
        · exact ⟨h1, h2⟩
  | move p =>
      simp only [uiStep, preview_mouse_move]
      split
      · split
        · exact ⟨h1, h2⟩
        · exact ⟨h1, h2⟩
      · split
        · split
          · refine ⟨h1, ?_⟩
            intro hen r0 hr0
            simp only [Option.some.injEq] at hr0
            subst hr0
            simp only at hen
            exact of_decide_eq_true hen
          · exact ⟨h1, h2⟩
        · exact ⟨h1, h2⟩
  | release =>
      simp only [uiStep, preview_mouse_release]
      split
      · split
        · split
          · refine ⟨h1, ?_⟩
            intro hen
            exact absurd hen (by simp)
          · exact ⟨h1, h2⟩
        · exact ⟨h1, h2⟩
      · exact ⟨h1, h2⟩
  | applyClick =>
      simp only [uiStep]
      split
      · rename_i hen
        simp only [apply_crop_from_rect]
        split
        · exact ⟨h1, h2⟩
        · rename_i r0 htemp
          refine ⟨?_, ?_⟩
          · intro r1 hr1
            simp only [Option.some.injEq] at hr1
            subst hr1
            exact h2 hen r0 htemp
          · intro _ r1 hr1
            exact absurd hr1 (by simp)
      · exact ⟨h1, h2⟩
  | clearClick =>
      refine ⟨?_, ?_⟩
      · intro r hr; exact absurd hr (by simp [uiStep, clear_crop])
      · intro hen; exact absurd hen (by simp [uiStep, clear_crop])
  | magToggle c =>
      exact ⟨h1, h2⟩

theorem cropInv_uiRun (evs : List UiEvent) : CropInv (uiRun initUiState evs) := by
  suffices h : ∀ s, CropInv s → CropInv (uiRun s evs) from h _ cropInv_init
  induction evs with
  | nil => intro s hs; exact hs
  | cons e tl ih => intro s hs; exact ih _ (cropInv_uiStep s e hs)

/-! ## Claim theorems -/

/-- C1, counterexample: at rotation 180 with an applied crop, the preview
tick's displayed bitmap is NOT the crop sliced out of the rotated frame.
On the 2x2 frame `[[1,2],[3,4]]` the code hands the slice `[[1]]` of the
raw saved frame to the resize step, while rotate-then-crop would hand
`[[4]]`. -/
theorem rotation_precedes_crop_cex :
    (fullTick 180 (some ⟨0, 0, 1, 1⟩) false ⟨0, 0, 0, 0⟩ 800 600 1280 720 200 200
        ⟨[[1, 2], [3, 4]]⟩).preview
      = RenderOut.scaled ⟨[[1]]⟩ 800 600
    ∧ claimedRotateThenCrop 180 ⟨0, 0, 1, 1⟩ 800 600 1280 720 ⟨[[1, 2], [3, 4]]⟩
      = RenderOut.scaled ⟨[[4]]⟩ 800 600
    ∧ (fullTick 180 (some ⟨0, 0, 1, 1⟩) false ⟨0, 0, 0, 0⟩ 800 600 1280 720 200 200
        ⟨[[1, 2], [3, 4]]⟩).preview
      ≠ claimedRotateThenCrop 180 ⟨0, 0, 1, 1⟩ 800 600 1280 720 ⟨[[1, 2], [3, 4]]⟩ := by
  refine ⟨by decide, by decide, by decide⟩

/-- C1, amended: when an applied crop exists the displayed bitmap is the
crop region sliced out of the raw, un-rotated frame saved before the
rotation step; the rotated image is discarded, so with a crop applied the
preview is identical to the rotation-0 preview. -/
theorem crop_slices_raw_frame (rotation : Int) (r : QRect) (mc : Bool) (mr : QRect)
    (lw lh sw sh mw mh : Int) (f : Frame) :
    (fullTick rotation (some r) mc mr lw lh sw sh mw mh f).preview
        = (fullTick 0 (some r) mc mr lw lh sw sh mw mh f).preview
    ∧ (fullTick rotation (some r) mc mr lw lh sw sh mw mh f).preview
        = (let b := cropSensorBounds r lw lh sw sh
           let img2 := f.sliceFrame b.y1 b.y2 b.x1 b.x2
           if 0 < img2.size then RenderOut.scaled img2 lw lh
           else RenderOut.black lw lh) :=
  ⟨rfl, rfl⟩

/-- C2: `capture_image` never consults `is_recording`; with the camera
initialized and a recording active, pressing Capture is not rejected —
the preview timer is stopped and `picam.stop()` runs, terminating the
recording, before the still reconfiguration. -/
theorem capture_during_recording_proceeds :
    capture_image { picamSome := true, isRecording := true }
      = { rejected := false, cameraStopped := true } := by
  decide

/-- C3, counterexample: the slider value 1000 lies in the configured
range, yet the pushed lens position is `1000 / 100.0 = 10.0`, not
`1000 / 1000 = 1.0`, and it exceeds the claimed bound 1.0. -/
theorem lens_position_cex :
    (1000 : Int) ∈ lensSliderRange
    ∧ set_lens_position_pushed 1000 = 10
    ∧ set_lens_position_pushed 1000 ≠ 1000 / 1000
    ∧ ¬ set_lens_position_pushed 1000 ≤ 1 := by
  refine ⟨⟨by norm_num, by norm_num⟩, ?_, ?_, ?_⟩ <;>
    norm_num [set_lens_position_pushed]

/-- C3, amended: for every slider value v in 0..1000 the pushed lens
position is `v / 100.0`, so the integer range 0-1000 maps onto the
interval 0.0-10.0 (not 0.0-1.0); the pushed value can exceed 1.0 but
never exceeds 10.0. -/
theorem lens_position_div_100 (v : Int) (hv : v ∈ lensSliderRange) :
    set_lens_position_pushed v = (v : ℚ) / 100
    ∧ 0 ≤ set_lens_position_pushed v
    ∧ set_lens_position_pushed v ≤ 10 := by
  obtain ⟨h0, h1⟩ := hv
  refine ⟨rfl, ?_, ?_⟩
  · unfold set_lens_position_pushed
    apply div_nonneg _ (by norm_num)
    exact_mod_cast h0
  · unfold set_lens_position_pushed
    rw [div_le_iff₀ (by norm_num)]
    exact_mod_cast h1

/-- C3 witness: `lens_position_div_100` at slider value 250. -/
theorem lens_position_div_100_witness :
    set_lens_position_pushed 250 = (250 : ℚ) / 100
    ∧ 0 ≤ set_lens_position_pushed 250
    ∧ set_lens_position_pushed 250 ≤ 10 :=
  lens_position_div_100 250 ⟨by norm_num, by norm_num⟩

/-- C4: temporary-file lifecycle of recording finalization, for every
target choice and every conversion outcome.  Declined save: the temp file
is removed, no error, a discard.  Chosen target with successful
conversion: the final file is produced and the temp file removed.  Chosen
target with failing conversion: the temp file is left in place and the
reported error embeds the failed command, which names the temp path.  No
path removes the temp file without either an explicit discard or a
produced final file. -/
theorem stop_recording_finalization (t : String) (conv : ConvOutcome) :
    ((stop_recording true none conv).tempRemoved = true
      ∧ (stop_recording true none conv).errorCmd = none
      ∧ (stop_recording true none conv).savedPath = none)
    ∧ ((stop_recording true (some t) ConvOutcome.success).tempRemoved = true
      ∧ (stop_recording true (some t) ConvOutcome.success).savedPath = some t
      ∧ (stop_recording true (some t) ConvOutcome.success).errorCmd = none)
    ∧ ((stop_recording true (some t) ConvOutcome.failure).tempRemoved = false
      ∧ (stop_recording true (some t) ConvOutcome.failure).errorCmd
          = some (ffmpegCmd t)
      ∧ tempVideoPath ∈ ffmpegCmd t
      ∧ (stop_recording true (some t) ConvOutcome.failure).savedPath = none) := by
  refine ⟨⟨rfl, rfl, rfl⟩, ⟨rfl, rfl, rfl⟩, ⟨rfl, rfl, ?_, rfl⟩⟩
  simp [ffmpegCmd]

/-- C5: over every event sequence from the initial state, an applied crop
rectangle is never below the 10-pixel threshold in either dimension:
below-threshold drafts are discarded on release, and the Apply button is
enabled only while the draft strictly exceeds 10 px in both dimensions. -/
theorem applied_crop_never_below_threshold (evs : List UiEvent) (r : QRect)
    (h : (uiRun initUiState evs).appliedRect = some r) :
    ¬ (r.width < 10 ∨ r.height < 10) := by
  obtain ⟨hw, hh⟩ := (cropInv_uiRun evs).1 r h
  rintro (hlt | hlt)
  · exact lt_asymm hw hlt
  · exact lt_asymm hh hlt

/-- C5 witness: the trace press-(5,5), drag to (50,60), release, Apply
produces the applied crop (5,5)-(50,60), which `applied_crop_never_below_threshold`
shows is not below the threshold. -/
theorem applied_crop_never_below_threshold_witness :
    ¬ ((⟨5, 5, 50, 60⟩ : QRect).width < 10 ∨ (⟨5, 5, 50, 60⟩ : QRect).height < 10) :=
  applied_crop_never_below_threshold
    [UiEvent.press ⟨5, 5⟩ true, UiEvent.move ⟨50, 60⟩, UiEvent.release,
      UiEvent.applyClick]
    ⟨5, 5, 50, 60⟩ (by decide)

/-- C6: a press inside the magnifier rectangle while the magnifier is
visible always starts a magnifier drag, recording the offset from the
rectangle's top-left; the crop-draft fields (`is_dragging`, `drag_start`,
`temp_drawn_rect`, apply-button state) and every other field are left
untouched, whatever their current values and whichever button was
pressed. -/
theorem press_in_magnifier_starts_mag_drag (s : UiState) (p : QPoint) (lb : Bool)
    (h1 : s.magChecked = true) (h2 : s.magRect.containsPt p = true) :
    uiStep s (UiEvent.press p lb)
      = { s with isMagDragging := true,
                 dragOffset := some (p.sub s.magRect.topLeft) } := by
  simp [uiStep, preview_mouse_press, h1, h2]

/-- C6 witness: `press_in_magnifier_starts_mag_drag` at the initial state
with the magnifier shown and a press at (400, 300), inside the centered
magnifier rectangle (325,225)-(474,374). -/
theorem press_in_magnifier_starts_mag_drag_witness :
    uiStep { initUiState with magChecked := true } (UiEvent.press ⟨400, 300⟩ true)
      = { initUiState with
            magChecked := true, isMagDragging := true,
            dragOffset := some (QPoint.sub ⟨400, 300⟩
              (QRect.topLeft (center_magnifier_box (QRect.ofXYWH 10 10 150 150)))) } :=
  press_in_magnifier_starts_mag_drag { initUiState with magChecked := true }
    ⟨400, 300⟩ true (by decide) (by decide)

/-- A magnifier drag in progress from the initial state: magnifier shown,
`is_mag_dragging` set with drag offset (0,0), magnifier rectangle still
at its centered position (325,225)-(474,374). -/
def magDraggingState : UiState :=
  { initUiState with
      magChecked := true
      isMagDragging := true
      dragOffset := some ⟨0, 0⟩ }

/-- C7, counterexample: with a magnifier drag active (offset (0,0)) and
the magnifier rectangle centered well inside the 800x600 display surface,
the move event to (-50,-60) repositions the rectangle to (-50,-60) with
no clamping, leaving it outside the display surface. -/
theorem mag_drag_move_unclamped_cex :
    withinDisplaySurface magDraggingState.magRect
    ∧ (uiStep magDraggingState (UiEvent.move ⟨-50, -60⟩)).magRect
        = ⟨-50, -60, 99, 89⟩
    ∧ ¬ withinDisplaySurface
        (uiStep magDraggingState (UiEvent.move ⟨-50, -60⟩)).magRect := by
  refine ⟨⟨by decide, by decide, by decide, by decide⟩, by decide, ?_⟩
  intro hin
  exact absurd hin.1 (by decide)

/-- C7, amended: during a magnifier drag, every pointer-move event
repositions the magnifier rectangle's top-left to exactly
`pointerPos - dragOffset`, with no clamping — the rectangle may extend
outside the display surface. -/
theorem mag_drag_move_no_clamp (s : UiState) (p o : QPoint)
    (h1 : s.isMagDragging = true) (h2 : s.dragOffset = some o) :
    (uiStep s (UiEvent.move p)).magRect = s.magRect.moveTopLeft (p.sub o) := by
  simp [uiStep, preview_mouse_move, h1, h2]

/-- C7 witness: `mag_drag_move_no_clamp` on the concrete dragging state of
the counterexample, moving to (500, 400). -/
theorem mag_drag_move_no_clamp_witness :
    (uiStep magDraggingState (UiEvent.move ⟨500, 400⟩)).magRect
      = QRect.moveTopLeft magDraggingState.magRect
          (QPoint.sub ⟨500, 400⟩ ⟨0, 0⟩) :=
  mag_drag_move_no_clamp magDraggingState ⟨500, 400⟩ ⟨0, 0⟩
    (by decide) (by decide)

/-- C8: for every applied crop rectangle and every nonnegative sensor
resolution, the computed sensor-space bounds lie in
`[0, sensorWidth] x [0, sensorHeight]` after clamping — never negative,
never beyond a sensor dimension. -/
theorem crop_sensor_bounds_within (r : QRect) (lw lh sw sh : Int)
    (hsw : 0 ≤ sw) (hsh : 0 ≤ sh) :
    0 ≤ (cropSensorBounds r lw lh sw sh).x1
    ∧ (cropSensorBounds r lw lh sw sh).x1 ≤ sw
    ∧ 0 ≤ (cropSensorBounds r lw lh sw sh).y1
    ∧ (cropSensorBounds r lw lh sw sh).y1 ≤ sh
    ∧ 0 ≤ (cropSensorBounds r lw lh sw sh).x2
    ∧ (cropSensorBounds r lw lh sw sh).x2 ≤ sw
    ∧ 0 ≤ (cropSensorBounds r lw lh sw sh).y2
    ∧ (cropSensorBounds r lw lh sw sh).y2 ≤ sh :=
  ⟨clampBound_nonneg _ _, clampBound_le_dim _ _ hsw,
   clampBound_nonneg _ _, clampBound_le_dim _ _ hsh,
   clampBound_nonneg _ _, clampBound_le_dim _ _ hsw,
   clampBound_nonneg _ _, clampBound_le_dim _ _ hsh⟩

/-- C8 witness: `crop_sensor_bounds_within` for the crop rectangle
(100,100)-(300,250) at the 800x600 label and the 1280x720 preview
resolution. -/
theorem crop_sensor_bounds_within_witness :
    0 ≤ (cropSensorBounds ⟨100, 100, 300, 250⟩ 800 600 1280 720).x1
    ∧ (cropSensorBounds ⟨100, 100, 300, 250⟩ 800 600 1280 720).x1 ≤ 1280
    ∧ 0 ≤ (cropSensorBounds ⟨100, 100, 300, 250⟩ 800 600 1280 720).y1
    ∧ (cropSensorBounds ⟨100, 100, 300, 250⟩ 800 600 1280 720).y1 ≤ 720
    ∧ 0 ≤ (cropSensorBounds ⟨100, 100, 300, 250⟩ 800 600 1280 720).x2
    ∧ (cropSensorBounds ⟨100, 100, 300, 250⟩ 800 600 1280 720).x2 ≤ 1280
    ∧ 0 ≤ (cropSensorBounds ⟨100, 100, 300, 250⟩ 800 600 1280 720).y2
    ∧ (cropSensorBounds ⟨100, 100, 300, 250⟩ 800 600 1280 720).y2 ≤ 720 :=
  crop_sensor_bounds_within ⟨100, 100, 300, 250⟩ 800 600 1280 720
    (by norm_num) (by norm_num)

/-- C9: whenever the clamped sensor-space crop region is empty (zero or
negative width or height), the preview tick produces the solid black
label-sized bitmap, with no error raised. -/
theorem empty_crop_yields_black (rotation : Int) (r : QRect) (mc : Bool)
    (mr : QRect) (lw lh sw sh mw mh : Int) (f : Frame)
    (h : (cropSensorBounds r lw lh sw sh).x2 ≤ (cropSensorBounds r lw lh sw sh).x1
      ∨ (cropSensorBounds r lw lh sw sh).y2 ≤ (cropSensorBounds r lw lh sw sh).y1) :
    (fullTick rotation (some r) mc mr lw lh sw sh mw mh f).preview
      = RenderOut.black lw lh := by
  have hz : (f.sliceFrame (cropSensorBounds r lw lh sw sh).y1
      (cropSensorBounds r lw lh sw sh).y2 (cropSensorBounds r lw lh sw sh).x1
      (cropSensorBounds r lw lh sw sh).x2).size = 0 :=
    sliceFrame_size_zero f _ _ _ _ h
  simp [fullTick, hz]

/-- C9 witness: `empty_crop_yields_black` for a crop rectangle whose top
and bottom both map to sensor row 120, so the clamped region has zero
height. -/
theorem empty_crop_yields_black_witness :
    (fullTick 0 (some ⟨100, 100, 200, 100⟩) false ⟨0, 0, 0, 0⟩ 800 600 1280 720
        200 200 ⟨[[1, 2], [3, 4]]⟩).preview
      = RenderOut.black 800 600 :=
  empty_crop_yields_black 0 ⟨100, 100, 200, 100⟩ false ⟨0, 0, 0, 0⟩
    800 600 1280 720 200 200 ⟨[[1, 2], [3, 4]]⟩ (by decide)

/-- C10: the magnifier view is computed from the saved raw frame — taken
before rotation and crop — with the magnifier rectangle mapped through
the raw frame's own full dimensions; consequently the magnifier output of
a tick is identical for any two rotation states and any two applied-crop
states. -/
theorem magnifier_reads_raw_frame (rot rot2 : Int) (crop crop2 : Option QRect)
    (mc : Bool) (mr : QRect) (lw lh sw sh mw mh : Int) (f : Frame) :
    (fullTick rot crop mc mr lw lh sw sh mw mh f).mag
        = (fullTick rot2 crop2 mc mr lw lh sw sh mw mh f).mag
    ∧ (fullTick rot crop mc mr lw lh sw sh mw mh f).mag
        = (if mc then some (update_magnifier f mr lw lh mw mh) else none) :=
  ⟨rfl, rfl⟩

end PiCamGui
